import Mathlib

/-!
Shallow embedding of the ThreeApp scene-composition and render-loop driver
from src/script.js. Numbers are modelled as exact rationals; the host random
source Math.random is an injected stream of rationals consumed in program
order; the rendering engine objects (scene, camera, renderer, lights, meshes,
geometry, material) are explicit records; the frame-callback mechanism
(requestAnimationFrame) and the per-frame body are a small state machine with
an event trace.
-/

namespace ThreeApp

/-- Three-component vector, mirroring THREE.Vector3 coordinates. -/
structure Vector3 where
  x : ℚ
  y : ℚ
  z : ℚ
deriving DecidableEq, Repr

/-- Zero vector: the default position and rotation of a freshly constructed THREE.Mesh. -/
def Vector3.zero : Vector3 := ⟨0, 0, 0⟩

/-- Box geometry resource, mirroring new THREE.BoxGeometry(w, h, d). -/
structure BoxGeometry where
  width : ℚ
  height : ℚ
  depth : ℚ
deriving DecidableEq, Repr

/-- Physical material resource, mirroring THREE.MeshPhysicalMaterial and the
fields of ThreeApp.MATERIAL_PARAM. -/
structure MeshPhysicalMaterial where
  color : ℕ
  metalness : ℚ
  roughness : ℚ
  transmission : ℚ
  clearcoat : ℚ
  clearcoatRoughness : ℚ
  reflectivity : ℚ
deriving DecidableEq, Repr

/-- Directional light, mirroring new THREE.DirectionalLight(color, intensity)
followed by position.copy. -/
structure DirectionalLight where
  color : ℕ
  intensity : ℚ
  position : Vector3
deriving DecidableEq, Repr

/-- Ambient light, mirroring new THREE.AmbientLight(color, intensity). -/
structure AmbientLight where
  color : ℕ
  intensity : ℚ
deriving DecidableEq, Repr

/-- Mesh instance: references to the shared geometry and material resources
(indices into the lists of created resources) plus a transform. -/
structure Mesh where
  geometryRef : ℕ
  materialRef : ℕ
  position : Vector3
  rotation : Vector3
deriving DecidableEq, Repr

/-- Freshly constructed mesh, mirroring new THREE.Mesh(geometry, material):
position (0,0,0) and rotation (0,0,0) by default. -/
def Mesh.new (g m : ℕ) : Mesh :=
  { geometryRef := g, materialRef := m, position := Vector3.zero, rotation := Vector3.zero }

/-- An object addable to the scene graph via scene.add. -/
inductive SceneObject where
  | directional (l : DirectionalLight)
  | ambient (l : AmbientLight)
  | meshObj (m : Mesh)
deriving DecidableEq, Repr

/-- Test for mesh scene objects. -/
def SceneObject.isMesh : SceneObject → Bool
  | .meshObj _ => true
  | _ => false

/-- Test for light scene objects. -/
def SceneObject.isLight : SceneObject → Bool
  | .directional _ => true
  | .ambient _ => true
  | .meshObj _ => false

/-- MATERIAL_PARAM from the source: color 0xffffff, metalness 1.0,
roughness 0.20, transmission 1.0, clearcoat 1.0, clearcoatRoughness 0.0,
reflectivity 1.0. -/
def MATERIAL_PARAM : MeshPhysicalMaterial :=
  { color := 0xffffff
    metalness := 1
    roughness := 20 / 100
    transmission := 1
    clearcoat := 1
    clearcoatRoughness := 0
    reflectivity := 1 }

/-- DIRECTIONAL_LIGHT_PARAM from the source: color 0x0045e0, intensity 60.0,
position (30, 100, 50). -/
def DIRECTIONAL_LIGHT_PARAM : DirectionalLight :=
  { color := 0x0045e0, intensity := 60, position := ⟨30, 100, 50⟩ }

/-- AMBIENT_LIGHT_PARAM from the source: color 0xd450ff, intensity 900.0. -/
def AMBIENT_LIGHT_PARAM : AmbientLight :=
  { color := 0xd450ff, intensity := 900 }

/-- The JavaScript double value of Math.PI, as an exact rational:
884279719003555 / 2^48 = 3.14159265358979311599... -/
def mathPI : ℚ := 884279719003555 / 281474976710656

/-- The population constant boxCount = 100 from the constructor. -/
def boxCount : ℕ := 100

/-- The spread constant transformScale = 6.0 from the constructor. -/
def transformScale : ℚ := 6

/-- Position component sampling: (Math.random() * 2.0 - 1.0) * transformScale. -/
def posSample (r : ℚ) : ℚ := (r * 2 - 1) * transformScale

/-- Rotation component sampling: Math.random() * Math.PI * 2. -/
def rotSample (r : ℚ) : ℚ := r * mathPI * 2

/-- One population mesh, mirroring one iteration of the quantity-production
loop: a fresh mesh on the shared geometry (handle 0) and material (handle 0),
its three position components then three rotation components sampled from the
random stream in source order (indices 6i, 6i+1, ..., 6i+5). -/
def makeBox (rng : ℕ → ℚ) (i : ℕ) : Mesh :=
  { geometryRef := 0
    materialRef := 0
    position :=
      ⟨posSample (rng (6 * i)), posSample (rng (6 * i + 1)), posSample (rng (6 * i + 2))⟩
    rotation :=
      ⟨rotSample (rng (6 * i + 3)), rotSample (rng (6 * i + 4)), rotSample (rng (6 * i + 5))⟩ }

/-- The boxArray built by the production loop: boxCount meshes in order. -/
def buildBoxes (rng : ℕ → ℚ) : List Mesh :=
  (List.range boxCount).map (makeBox rng)

/-- The extra standalone mesh created after the loop (this.box = new
THREE.Mesh(this.geometry, this.material)), left untransformed. -/
def extraBox : Mesh := Mesh.new 0 0

/-- Scene contents in scene.add order: directional light, ambient light, the
100 population boxes, then the extra standalone box. -/
def initialScene (rng : ℕ → ℚ) : List SceneObject :=
  [SceneObject.directional DIRECTIONAL_LIGHT_PARAM,
   SceneObject.ambient AMBIENT_LIGHT_PARAM]
    ++ (buildBoxes rng).map SceneObject.meshObj
    ++ [SceneObject.meshObj extraBox]

/-- Full application state after construction, mirroring the fields of the
ThreeApp instance. The projectionMatrix field records the (fovy, aspect,
near, far) tuple the projection was last computed from, as set by the
PerspectiveCamera constructor and by updateProjectionMatrix. The geometries
and materials lists record every geometry and material resource created, in
creation order; mesh geometryRef and materialRef index into them. -/
structure State where
  rendererWidth : ℚ
  rendererHeight : ℚ
  rendererClearColor : ℕ
  cameraFovy : ℚ
  cameraAspect : ℚ
  cameraNear : ℚ
  cameraFar : ℚ
  cameraPosition : Vector3
  cameraLookAt : Vector3
  projectionMatrix : ℚ × ℚ × ℚ × ℚ
  scene : List SceneObject
  geometries : List BoxGeometry
  materials : List MeshPhysicalMaterial
  boxArray : List Mesh
  box : Mesh
  directionalLight : DirectionalLight
  ambientLight : AmbientLight
  controlsAutoRotate : Bool
  controlsAutoRotateSpeed : ℚ
deriving DecidableEq, Repr

/-- The ThreeApp constructor, as a function of the window dimensions
(window.innerWidth, window.innerHeight, read by RENDERER_PARAM,
CAMERA_PARAM.aspect) and the Math.random stream. CAMERA_PARAM supplies
fovy 60, near 0.1, far 10.0, position (5,2,3), lookAt (0,0,0);
RENDERER_PARAM supplies clearColor 0x000000 and the window size. Exactly one
BoxGeometry(1,1,1) and one MeshPhysicalMaterial(MATERIAL_PARAM) are created. -/
def construct (winW winH : ℚ) (rng : ℕ → ℚ) : State :=
  { rendererWidth := winW
    rendererHeight := winH
    rendererClearColor := 0x000000
    cameraFovy := 60
    cameraAspect := winW / winH
    cameraNear := 1 / 10
    cameraFar := 10
    cameraPosition := ⟨5, 2, 3⟩
    cameraLookAt := ⟨0, 0, 0⟩
    projectionMatrix := (60, winW / winH, 1 / 10, 10)
    scene := initialScene rng
    geometries := [⟨1, 1, 1⟩]
    materials := [MATERIAL_PARAM]
    boxArray := buildBoxes rng
    box := extraBox
    directionalLight := DIRECTIONAL_LIGHT_PARAM
    ambientLight := AMBIENT_LIGHT_PARAM
    controlsAutoRotate := true
    controlsAutoRotateSpeed := 3 }

/-- The resize listener body, as a function of the window dimensions at event
time: renderer.setSize(w, h); camera.aspect = w / h;
camera.updateProjectionMatrix() (recompute the projection from the current
fovy, the new aspect, near, far). -/
def onResize (w h : ℚ) (st : State) : State :=
  { st with
    rendererWidth := w
    rendererHeight := h
    cameraAspect := w / h
    projectionMatrix := (st.cameraFovy, w / h, st.cameraNear, st.cameraFar) }

/-- Meshes currently registered in the scene. -/
def State.sceneMeshes (st : State) : List Mesh :=
  st.scene.filterMap fun o =>
    match o with
    | .meshObj m => some m
    | _ => none

/-- Observable steps of one render-loop iteration. -/
inductive Event where
  | schedule
  | update
  | draw
deriving DecidableEq, Repr

/-- Render-loop driver state: the number of pending requestAnimationFrame
registrations of this.render, and the trace of observable steps so far. -/
structure LoopState where
  pending : ℕ
  trace : List Event
deriving DecidableEq, Repr

/-- requestAnimationFrame(this.render): registers one more pending
frame callback. -/
def requestAnimationFrame (s : LoopState) : LoopState :=
  { s with pending := s.pending + 1, trace := s.trace ++ [Event.schedule] }

/-- this.controls.update(): one interaction-controller update. -/
def controlsUpdate (s : LoopState) : LoopState :=
  { s with trace := s.trace ++ [Event.update] }

/-- this.renderer.render(this.scene, this.camera): one draw call. -/
def rendererRender (s : LoopState) : LoopState :=
  { s with trace := s.trace ++ [Event.draw] }

/-- The body of ThreeApp.render, in source order: requestAnimationFrame,
then controls.update(), then renderer.render(scene, camera). -/
def render (s : LoopState) : LoopState :=
  rendererRender (controlsUpdate (requestAnimationFrame s))

/-- The host firing one pending frame callback: consumes one registration and
invokes render. With no pending registration nothing happens. -/
def fireFrame (s : LoopState) : LoopState :=
  match s.pending with
  | 0 => s
  | n + 1 => render { s with pending := n }

/-- Loop state before the first render() call: no pending registrations. -/
def initialLoop : LoopState := ⟨0, []⟩

/-- Loop states reachable after the first render() call, by the host firing
frame callbacks. -/
inductive ReachableFromRunning : LoopState → Prop
  | base : ReachableFromRunning (render initialLoop)
  | frame {s : LoopState} : ReachableFromRunning s → ReachableFromRunning (fireFrame s)

/-- All-zero random stream, for concrete evaluations. -/
def rngZero : ℕ → ℚ := fun _ => 0

/-- Random stream agreeing with rngZero on the first 600 indices only. -/
def rngZero600 : ℕ → ℚ := fun i => if i < 600 then 0 else 1

/-! Helper lemmas shared by the claim theorems. -/

/-- Each render() invocation adds exactly one pending frame registration. -/
theorem render_pending (t : LoopState) : (render t).pending = t.pending + 1 := rfl

/-- The scene meshes of a constructed state are the 100 population boxes
followed by the extra standalone box. -/
theorem sceneMeshes_construct (winW winH : ℚ) (rng : ℕ → ℚ) :
    (construct winW winH rng).sceneMeshes = buildBoxes rng ++ [extraBox] := by
  simp only [State.sceneMeshes, construct, initialScene, List.filterMap_append,
    List.filterMap_map, List.filterMap_cons, List.filterMap_nil, List.nil_append]
  congr 1

/-- Position sampling stays inside the closed interval [-6, 6] for samples
in [0, 1). -/
theorem posSample_bounds {r : ℚ} (h0 : 0 ≤ r) (h1 : r < 1) :
    -6 ≤ posSample r ∧ posSample r ≤ 6 := by
  unfold posSample transformScale
  constructor <;> nlinarith

/-- The double value of Math.PI is positive. -/
theorem mathPI_pos : (0 : ℚ) < mathPI := by norm_num [mathPI]

/-- The double value of Math.PI is strictly below the real number pi. -/
theorem mathPI_lt_pi : (mathPI : ℝ) < Real.pi := by
  have h : (mathPI : ℝ) < 3.14159265358979323846 := by
    norm_num [mathPI]
  exact h.trans Real.pi_gt_d20

/-- Rotation sampling stays inside [0, 2 pi) for samples in [0, 1). -/
theorem rotSample_bounds {r : ℚ} (h0 : 0 ≤ r) (h1 : r < 1) :
    0 ≤ rotSample r ∧ (rotSample r : ℝ) < 2 * Real.pi := by
  constructor
  · unfold rotSample
    nlinarith [mathPI_pos]
  · have hr0 : (0 : ℝ) ≤ (r : ℝ) := by exact_mod_cast h0
    have hr1 : (r : ℝ) < 1 := by exact_mod_cast h1
    have hpp : (0 : ℝ) < (mathPI : ℝ) := by exact_mod_cast mathPI_pos
    have he : (rotSample r : ℝ) = (r : ℝ) * (mathPI : ℝ) * 2 := by
      push_cast [rotSample]
      ring
    rw [he]
    nlinarith [mathPI_lt_pi, mul_pos (sub_pos.mpr hr1) hpp]

/-! Claim theorems. -/

/-- C1 counterexample: the state reached by the first render() call is in the
Running reachable set, yet a second direct render() call leaves two pending
frame-scheduling registrations, not one — render() has no re-entrance guard,
so the second call is not a no-op. -/
theorem second_render_call_leaves_two_pending :
    ReachableFromRunning (render initialLoop) ∧
    (render (render initialLoop)).pending = 2 ∧
    (render (render initialLoop)).pending ≠ 1 :=
  ⟨.base, rfl, by decide⟩

/-- C1 (amended): in every state reachable from the first render() call by
frame-callback firings there is exactly one pending frame-scheduling
registration, but a second direct call to render() is not a no-op: it adds a
duplicate registration, leaving two pending. -/
theorem pending_registrations_after_render {s : LoopState}
    (h : ReachableFromRunning s) :
    s.pending = 1 ∧ (render s).pending = 2 := by
  induction h with
  | base => exact ⟨rfl, rfl⟩
  | @frame t ht ih =>
      have h1 : (fireFrame t).pending = 1 := by
        simp only [fireFrame, ih.1, render_pending]
      exact ⟨h1, by rw [render_pending, h1]⟩

/-- C1 witness: the amended claim instantiated at the state produced by the
first render() call. -/
theorem pending_registrations_after_render_witness :
    ReachableFromRunning (render initialLoop) ∧
    (render initialLoop).pending = 1 ∧ (render (render initialLoop)).pending = 2 :=
  ⟨.base, pending_registrations_after_render ReachableFromRunning.base⟩

/-- C2 counterexample: after construction (here with window 800x600 and the
all-zero random stream) the scene holds 103 objects, not 102 — the
constructor also adds the extra standalone box beyond the 100 population
meshes and 2 lights. -/
theorem scene_length_ne_102 :
    ¬ (construct 800 600 rngZero).scene.length = 102 := by
  have h : (construct 800 600 rngZero).scene.length = 103 := by
    simp [construct, initialScene, buildBoxes, boxCount]
  omega

/-- C2 (amended): after construction with the population constant 100, the
Scene contains exactly 103 addable objects — 101 mesh instances (the 100
population meshes plus the extra standalone mesh) and 2 lights (one
directional, one ambient) — and no others. -/
theorem scene_contains_103_objects (winW winH : ℚ) (rng : ℕ → ℚ) :
    ((construct winW winH rng).scene.filter SceneObject.isMesh).length = 101 ∧
    ((construct winW winH rng).scene.filter SceneObject.isLight).length = 2 ∧
    (construct winW winH rng).scene.length = 103 := by
  refine ⟨?_, ?_, ?_⟩ <;>
    simp [construct, initialScene, buildBoxes, boxCount, List.filter_append,
      List.filter_map, SceneObject.isMesh, SceneObject.isLight, Function.comp_def]

/-- C3: construction creates exactly one geometry resource and exactly one
material resource, and every mesh instance in the scene references those same
two resource handles (handle 0 into each creation list), regardless of the
population size constant. -/
theorem single_geometry_material_shared (winW winH : ℚ) (rng : ℕ → ℚ) :
    (construct winW winH rng).geometries.length = 1 ∧
    (construct winW winH rng).materials.length = 1 ∧
    ∀ m ∈ (construct winW winH rng).sceneMeshes,
      m.geometryRef = 0 ∧ m.materialRef = 0 := by
  refine ⟨rfl, rfl, ?_⟩
  intro m hm
  rw [sceneMeshes_construct] at hm
  rcases List.mem_append.mp hm with hb | he
  · simp only [buildBoxes, List.mem_map, List.mem_range] at hb
    obtain ⟨i, _, rfl⟩ := hb
    exact ⟨rfl, rfl⟩
  · rw [List.mem_singleton.mp he]
    exact ⟨rfl, rfl⟩

/-- C3 witness: the shared-handle property instantiated at the concrete
construction with window 800x600, the all-zero random stream, and the extra
box as the scene mesh. -/
theorem single_geometry_material_shared_witness :
    extraBox ∈ (construct 800 600 rngZero).sceneMeshes ∧
    extraBox.geometryRef = 0 ∧ extraBox.materialRef = 0 := by
  have hm : extraBox ∈ (construct 800 600 rngZero).sceneMeshes := by
    rw [sceneMeshes_construct]
    exact List.mem_append_right _ (List.mem_singleton_self _)
  exact ⟨hm, (single_geometry_material_shared 800 600 rngZero).2.2 extraBox hm⟩

/-- C4: provided every value of the random source lies in [0, 1), every mesh
of the generated population has all three position components in [-6, 6] and
all three rotation components in [0, 2 pi). -/
theorem transforms_within_bounds (winW winH : ℚ) (rng : ℕ → ℚ)
    (h : ∀ i, 0 ≤ rng i ∧ rng i < 1) :
    ∀ m ∈ (construct winW winH rng).boxArray,
      (-6 ≤ m.position.x ∧ m.position.x ≤ 6) ∧
      (-6 ≤ m.position.y ∧ m.position.y ≤ 6) ∧
      (-6 ≤ m.position.z ∧ m.position.z ≤ 6) ∧
      (0 ≤ m.rotation.x ∧ (m.rotation.x : ℝ) < 2 * Real.pi) ∧
      (0 ≤ m.rotation.y ∧ (m.rotation.y : ℝ) < 2 * Real.pi) ∧
      (0 ≤ m.rotation.z ∧ (m.rotation.z : ℝ) < 2 * Real.pi) := by
  intro m hm
  simp only [construct, buildBoxes, List.mem_map, List.mem_range] at hm
  obtain ⟨i, _, rfl⟩ := hm
  exact ⟨posSample_bounds (h _).1 (h _).2, posSample_bounds (h _).1 (h _).2,
    posSample_bounds (h _).1 (h _).2, rotSample_bounds (h _).1 (h _).2,
    rotSample_bounds (h _).1 (h _).2, rotSample_bounds (h _).1 (h _).2⟩

/-- C4 witness: the bounds instantiated with the all-zero random stream and
the first population mesh. -/
theorem transforms_within_bounds_witness :
    (∀ i, 0 ≤ rngZero i ∧ rngZero i < 1) ∧
    (-6 ≤ (makeBox rngZero 0).position.x ∧ (makeBox rngZero 0).position.x ≤ 6) := by
  have hrng : ∀ i, 0 ≤ rngZero i ∧ rngZero i < 1 := fun i => by norm_num [rngZero]
  have hm : makeBox rngZero 0 ∈ (construct 800 600 rngZero).boxArray := by
    simp only [construct, buildBoxes, List.mem_map, List.mem_range]
    exact ⟨0, by norm_num [boxCount], rfl⟩
  exact ⟨hrng, (transforms_within_bounds 800 600 rngZero hrng _ hm).1⟩

/-- C5: one invocation of render() extends the trace with exactly the
sequence schedule, update, draw — the next iteration is scheduled first,
then the interaction controller update runs exactly once, then exactly one
draw call renders the scene; the update of an iteration always completes
before that iteration's draw and is never skipped. -/
theorem render_iteration_order (s : LoopState) :
    (render s).trace = s.trace ++ [Event.schedule, Event.update, Event.draw] := by
  simp [render, rendererRender, controlsUpdate, requestAnimationFrame]

/-- C6: the resize handler sets the renderer output size to the new window
dimensions (w, h), sets the camera aspect ratio to w / h, and recomputes the
camera projection from the current fovy, the new aspect, near and far; in
particular a resize to (1024, 768) yields aspect 1024 / 768. -/
theorem resize_sets_size_aspect_projection (w h : ℚ) (st : State) :
    (onResize w h st).rendererWidth = w ∧
    (onResize w h st).rendererHeight = h ∧
    (onResize w h st).cameraAspect = w / h ∧
    (onResize w h st).projectionMatrix
      = (st.cameraFovy, w / h, st.cameraNear, st.cameraFar) ∧
    (onResize 1024 768 st).cameraAspect = 1024 / 768 :=
  ⟨rfl, rfl, rfl, rfl, rfl⟩

/-- C7: the resize handler is idempotent — applying it twice with the same
dimensions leaves renderer size and camera aspect ratio exactly as after the
first application, from any starting state. -/
theorem resize_idempotent (w h : ℚ) (st : State) :
    (onResize w h (onResize w h st)).rendererWidth
      = (onResize w h st).rendererWidth ∧
    (onResize w h (onResize w h st)).rendererHeight
      = (onResize w h st).rendererHeight ∧
    (onResize w h (onResize w h st)).cameraAspect
      = (onResize w h st).cameraAspect :=
  ⟨rfl, rfl, rfl⟩

/-- C8: construction creates exactly one extra standalone mesh beyond the
population; it shares the geometry and material handles (0, 0), sits at the
origin with identity rotation, and is registered in the scene (as its last
object, the only scene mesh outside the population array). -/
theorem extra_box_at_origin (winW winH : ℚ) (rng : ℕ → ℚ) :
    (construct winW winH rng).box = Mesh.new 0 0 ∧
    (construct winW winH rng).box.position = Vector3.zero ∧
    (construct winW winH rng).box.rotation = Vector3.zero ∧
    (construct winW winH rng).box.geometryRef = 0 ∧
    (construct winW winH rng).box.materialRef = 0 ∧
    (construct winW winH rng).sceneMeshes
      = (construct winW winH rng).boxArray ++ [(construct winW winH rng).box] := by
  refine ⟨rfl, rfl, rfl, rfl, rfl, ?_⟩
  rw [sceneMeshes_construct]
  rfl

/-- C9: construction is deterministic given the random source — if two
random streams agree on the 600 samples the production loop consumes (six
per population mesh, in order), the two constructed states are identical,
transform sequences of all 100 population meshes included. -/
theorem construction_deterministic (winW winH : ℚ) (rngA rngB : ℕ → ℚ)
    (h : ∀ i < 600, rngA i = rngB i) :
    construct winW winH rngA = construct winW winH rngB := by
  have hb : buildBoxes rngA = buildBoxes rngB := by
    unfold buildBoxes
    apply List.map_congr_left
    intro i hi
    have hi' : i < 100 := by simpa [boxCount] using List.mem_range.mp hi
    unfold makeBox
    rw [h (6 * i) (by omega), h (6 * i + 1) (by omega), h (6 * i + 2) (by omega),
      h (6 * i + 3) (by omega), h (6 * i + 4) (by omega), h (6 * i + 5) (by omega)]
  unfold construct initialScene
  rw [hb]

/-- C9 witness: the determinism claim instantiated at two concretely distinct
streams that agree on the first 600 samples. -/
theorem construction_deterministic_witness :
    (∀ i < 600, rngZero i = rngZero600 i) ∧
    construct 800 600 rngZero = construct 800 600 rngZero600 := by
  have h : ∀ i < 600, rngZero i = rngZero600 i := by
    intro i hi
    simp [rngZero, rngZero600, hi]
  exact ⟨h, construction_deterministic 800 600 rngZero rngZero600 h⟩

/-- C10: the resize handler mutates only the renderer output size, the
camera aspect ratio and the projection matrix — camera fovy, near, far,
world position and look-at target, the scene contents, the created geometry
and material resources, every mesh (population and standalone), the lights,
the clear color and the controls configuration are all unchanged. -/
theorem resize_frame_condition (w h : ℚ) (st : State) :
    (onResize w h st).cameraFovy = st.cameraFovy ∧
    (onResize w h st).cameraNear = st.cameraNear ∧
    (onResize w h st).cameraFar = st.cameraFar ∧
    (onResize w h st).cameraPosition = st.cameraPosition ∧
    (onResize w h st).cameraLookAt = st.cameraLookAt ∧
    (onResize w h st).scene = st.scene ∧
    (onResize w h st).geometries = st.geometries ∧
    (onResize w h st).materials = st.materials ∧
    (onResize w h st).boxArray = st.boxArray ∧
    (onResize w h st).box = st.box ∧
    (onResize w h st).directionalLight = st.directionalLight ∧
    (onResize w h st).ambientLight = st.ambientLight ∧
    (onResize w h st).rendererClearColor = st.rendererClearColor ∧
    (onResize w h st).controlsAutoRotate = st.controlsAutoRotate ∧
    (onResize w h st).controlsAutoRotateSpeed = st.controlsAutoRotateSpeed :=
  ⟨rfl, rfl, rfl, rfl, rfl, rfl, rfl, rfl, rfl, rfl, rfl, rfl, rfl, rfl, rfl⟩

end ThreeApp
